import Mathlib

/-!
Shallow embedding of `start_sidecar` from `src/src-tauri/src/main.rs`
(ShipAgent Tauri v2 desktop wrapper).

The Rust command resolves the backend executable path inside the bundled
resource directory, checks that it exists, spawns it via
`tauri-plugin-shell` with arguments `["serve", "--port", "0"]`, and then
receives `CommandEvent`s from the child until it either sees a stdout line
starting with `SHIPAGENT_PORT=` (break, parse the remainder as `u16`), an
`Error` event (return `Err("Backend stderr: …")`), or a `Terminated` event
(return `Err("Backend exited early: …")`); a stream that ends without any
of these yields `Err("Backend did not report a port")`.

Machine-level details modelled explicitly:
  * stdout lines arrive as byte vectors (`Vec<u8>`) and are decoded with
    `String::from_utf8_lossy`, i.e. WHATWG UTF-8 decoding where each
    maximal invalid subpart is replaced by U+FFFD — `utf8DecodeLossy`;
  * paths are byte lists (Unix `OsStr`); `Path::display` decodes lossily,
    `Path::to_str` succeeds exactly on valid UTF-8;
  * `str::trim` removes Unicode-whitespace characters from both ends;
  * `str::parse::<u16>` accepts an optional leading `+` followed by one or
    more ASCII digits whose value fits in 16 bits.

Ambient capabilities (Tauri's resource resolution, the filesystem
existence check, and process spawning) are passed as explicit parameters,
so the whole command is a pure function of those oracles.
-/

/-- Bytes of an ASCII string literal (used only on ASCII literals, where
UTF-8 encoding is the identity on code points). -/
def asciiBytes (s : String) : List Nat :=
  s.data.map Char.toNat

/-- Whether a byte is a UTF-8 continuation byte (`0x80 ..= 0xBF`). -/
def contByte (b : Nat) : Bool :=
  decide (0x80 ≤ b) && decide (b ≤ 0xBF)

/-- Valid second byte of a three-byte UTF-8 sequence headed by `b0`
(excludes overlong encodings for `0xE0` and surrogates for `0xED`). -/
def validE2 (b0 b1 : Nat) : Bool :=
  if b0 = 0xE0 then decide (0xA0 ≤ b1) && decide (b1 ≤ 0xBF)
  else if b0 = 0xED then decide (0x80 ≤ b1) && decide (b1 ≤ 0x9F)
  else contByte b1

/-- Valid second byte of a four-byte UTF-8 sequence headed by `b0`
(excludes overlong encodings for `0xF0` and code points above U+10FFFF
for `0xF4`). -/
def validF2 (b0 b1 : Nat) : Bool :=
  if b0 = 0xF0 then decide (0x90 ≤ b1) && decide (b1 ≤ 0xBF)
  else if b0 = 0xF4 then decide (0x80 ≤ b1) && decide (b1 ≤ 0x8F)
  else contByte b1

/-- UTF-8 decoding with lossy replacement, as performed by Rust's
`String::from_utf8_lossy`: each maximal prefix of a valid sequence that
cannot be completed is replaced by a single U+FFFD replacement character
(Unicode "substitution of maximal subparts"). -/
def utf8DecodeLossy : List Nat → List Char
  | [] => []
  | b0 :: rest =>
    if b0 ≤ 0x7F then
      Char.ofNat b0 :: utf8DecodeLossy rest
    else if 0xC2 ≤ b0 ∧ b0 ≤ 0xDF then
      match rest with
      | [] => [Char.ofNat 0xFFFD]
      | b1 :: r1 =>
        if contByte b1 then
          Char.ofNat ((b0 - 0xC0) * 0x40 + (b1 - 0x80)) :: utf8DecodeLossy r1
        else
          Char.ofNat 0xFFFD :: utf8DecodeLossy (b1 :: r1)
    else if 0xE0 ≤ b0 ∧ b0 ≤ 0xEF then
      match rest with
      | [] => [Char.ofNat 0xFFFD]
      | b1 :: r1 =>
        if validE2 b0 b1 then
          match r1 with
          | [] => [Char.ofNat 0xFFFD]
          | b2 :: r2 =>
            if contByte b2 then
              Char.ofNat ((b0 - 0xE0) * 0x1000 + (b1 - 0x80) * 0x40 + (b2 - 0x80))
                :: utf8DecodeLossy r2
            else
              Char.ofNat 0xFFFD :: utf8DecodeLossy (b2 :: r2)
        else
          Char.ofNat 0xFFFD :: utf8DecodeLossy (b1 :: r1)
    else if 0xF0 ≤ b0 ∧ b0 ≤ 0xF4 then
      match rest with
      | [] => [Char.ofNat 0xFFFD]
      | b1 :: r1 =>
        if validF2 b0 b1 then
          match r1 with
          | [] => [Char.ofNat 0xFFFD]
          | b2 :: r2 =>
            if contByte b2 then
              match r2 with
              | [] => [Char.ofNat 0xFFFD]
              | b3 :: r3 =>
                if contByte b3 then
                  Char.ofNat ((b0 - 0xF0) * 0x40000 + (b1 - 0x80) * 0x1000
                      + (b2 - 0x80) * 0x40 + (b3 - 0x80))
                    :: utf8DecodeLossy r3
                else
                  Char.ofNat 0xFFFD :: utf8DecodeLossy (b3 :: r3)
            else
              Char.ofNat 0xFFFD :: utf8DecodeLossy (b2 :: r2)
        else
          Char.ofNat 0xFFFD :: utf8DecodeLossy (b1 :: r1)
    else
      Char.ofNat 0xFFFD :: utf8DecodeLossy rest

/-- Whether a byte list is well-formed UTF-8 (the success condition of
Rust's `std::str::from_utf8`, hence of `Path::to_str` on Unix). -/
def isValidUtf8 : List Nat → Bool
  | [] => true
  | b0 :: rest =>
    if b0 ≤ 0x7F then isValidUtf8 rest
    else if 0xC2 ≤ b0 ∧ b0 ≤ 0xDF then
      match rest with
      | [] => false
      | b1 :: r1 => contByte b1 && isValidUtf8 r1
    else if 0xE0 ≤ b0 ∧ b0 ≤ 0xEF then
      match rest with
      | [] => false
      | b1 :: r1 =>
        validE2 b0 b1 &&
          match r1 with
          | [] => false
          | b2 :: r2 => contByte b2 && isValidUtf8 r2
    else if 0xF0 ≤ b0 ∧ b0 ≤ 0xF4 then
      match rest with
      | [] => false
      | b1 :: r1 =>
        validF2 b0 b1 &&
          match r1 with
          | [] => false
          | b2 :: r2 =>
            contByte b2 &&
              match r2 with
              | [] => false
              | b3 :: r3 => contByte b3 && isValidUtf8 r3
    else false

/-- Rust's `char::is_whitespace`: the Unicode `White_Space` property. -/
def rustIsWhitespace (c : Char) : Bool :=
  decide (c.toNat = 0x09) || decide (c.toNat = 0x0A) || decide (c.toNat = 0x0B) ||
  decide (c.toNat = 0x0C) || decide (c.toNat = 0x0D) || decide (c.toNat = 0x20) ||
  decide (c.toNat = 0x85) || decide (c.toNat = 0xA0) || decide (c.toNat = 0x1680) ||
  (decide (0x2000 ≤ c.toNat) && decide (c.toNat ≤ 0x200A)) ||
  decide (c.toNat = 0x2028) || decide (c.toNat = 0x2029) ||
  decide (c.toNat = 0x202F) || decide (c.toNat = 0x205F) || decide (c.toNat = 0x3000)

/-- Rust's `str::trim`: drop Unicode whitespace from both ends. -/
def rustTrim (s : List Char) : List Char :=
  ((s.dropWhile rustIsWhitespace).reverse.dropWhile rustIsWhitespace).reverse

/-- Rust's `str::parse::<u16>`: an optional leading `+`, then one or more
ASCII digits; fails on an empty digit string, any non-digit character, or
a value exceeding `u16::MAX`.  (Rust checks overflow after each digit, but
since appending a digit never decreases the accumulated value, overflow
occurs at some step iff the total value exceeds 65535.) -/
def parseU16 (s : List Char) : Option Nat :=
  let digits := match s with
    | '+' :: r => r
    | _ => s
  if digits.isEmpty then none
  else if digits.all (fun c => c.isDigit) then
    let v := digits.foldl (fun a c => a * 10 + (c.toNat - 48)) 0
    if v ≤ 65535 then some v else none
  else none

/-- Rust's `str::strip_prefix` on character lists: `some` of the remainder
when the first argument is an initial segment, `none` otherwise. -/
def stripStart : List Char → List Char → Option (List Char)
  | [], s => some s
  | _ :: _, [] => none
  | p :: ps, c :: cs => if p = c then stripStart ps cs else none

/-- The handshake marker `"SHIPAGENT_PORT="` searched for at the start of
each stdout line. -/
def portMarker : List Char :=
  "SHIPAGENT_PORT=".data

/-- `tauri_plugin_shell::process::CommandEvent`: stdout/stderr lines carry
raw bytes, `Error` carries a message from the event channel, `Terminated`
carries the `TerminatedPayload` fields `code` and `signal`. -/
inductive CommandEvent where
  | Stdout (line : List Nat)
  | Stderr (line : List Nat)
  | Error (msg : String)
  | Terminated (code : Option Int) (signal : Option Int)
deriving DecidableEq

/-- How the `while let Some(event) = rx.recv()` loop in `start_sidecar`
ends: `done p` when the loop exits (by `break` or stream end) with the
`port` variable holding `p`; `earlyReturn msg` for a `return Err(msg)`
executed inside the loop. -/
inductive LoopExit where
  | done (port : Option Nat)
  | earlyReturn (msg : String)
deriving DecidableEq

/-- Rust's `{:?}` rendering of the `Option<i32>` exit code used in the
early-termination message: `None` or `Some(n)`. -/
def debugOption : Option Int → String
  | none => "None"
  | some n => "Some(" ++ toString n ++ ")"

/-- The receive loop of `start_sidecar`, applied to the sequence of events
the channel will deliver.  Returns the loop exit together with the suffix
of events left unconsumed when the loop stops. -/
def recvLoop : List CommandEvent → LoopExit × List CommandEvent
  | [] => (LoopExit.done none, [])
  | CommandEvent.Stdout line :: rest =>
    match stripStart portMarker (utf8DecodeLossy line) with
    | some p => (LoopExit.done (parseU16 (rustTrim p)), rest)
    | none => recvLoop rest
  | CommandEvent.Stderr _ :: rest => recvLoop rest
  | CommandEvent.Error e :: rest =>
    (LoopExit.earlyReturn ("Backend stderr: " ++ e), rest)
  | CommandEvent.Terminated code _ :: rest =>
    (LoopExit.earlyReturn ("Backend exited early: " ++ debugOption code), rest)

/-- The handshake phase of `start_sidecar`: run the receive loop, then
apply `port.ok_or_else(|| "Backend did not report a port")`. -/
def start_sidecar_handshake (events : List CommandEvent) : Except String Nat :=
  match (recvLoop events).1 with
  | LoopExit.earlyReturn msg => Except.error msg
  | LoopExit.done (some p) => Except.ok p
  | LoopExit.done none => Except.error "Backend did not report a port"

/-- `PathBuf::push` (hence `Path::join`) for a relative component on Unix:
append a `/` separator unless the base is empty or already ends with one,
then append the component's bytes.  (Both components joined in
`start_sidecar` are fixed relative names, so the absolute-component case
of `push` never arises.) -/
def pathJoin (base comp : List Nat) : List Nat :=
  if base = [] then comp
  else if base.getLast? = some 47 then base ++ comp
  else base ++ 47 :: comp

/-- `Path::display` on Unix: lossy UTF-8 decoding of the path bytes. -/
def pathDisplay (p : List Nat) : String :=
  String.mk (utf8DecodeLossy p)

/-- `Path::to_str` on Unix: `some` of the decoded string exactly when the
bytes are valid UTF-8 (on which lossy decoding agrees with strict
decoding), `none` otherwise. -/
def pathToStr (p : List Nat) : Option String :=
  if isValidUtf8 p then some (pathDisplay p) else none

/-- The executable path resolved by `start_sidecar`:
`resource_dir.join("backend-dist").join("shipagent-core")`. -/
def resolvedExecutablePath (root : List Nat) : List Nat :=
  pathJoin (pathJoin root (asciiBytes "backend-dist")) (asciiBytes "shipagent-core")

/-- The fixed argument vector passed to the spawned worker:
`.args(["serve", "--port", "0"])`. -/
def sidecar_args : List String :=
  ["serve", "--port", "0"]

/-- Observable outcome of one `start_sidecar` invocation: the Rust
function returns `Result<u16, String>` (`ok`/`err`), and additionally may
panic on the `unwrap()` in the spawn step (`panicked`). -/
inductive SidecarOutcome where
  | ok (port : Nat)
  | err (msg : String)
  | panicked (msg : String)
deriving DecidableEq

/-- The whole `start_sidecar` Tauri command, as a function of its ambient
capabilities: `resource_dir` is the result of `app.path().resource_dir()`
(a path in bytes, or the error rendered by `{e}`); `fs_exists` is
`Path::exists`; `spawn exe args` is
`shell.command(exe).args(args).spawn()`, returning the stream of events
the receiver will deliver, or the spawn error text. -/
def start_sidecar (resource_dir : Except String (List Nat))
    (fs_exists : List Nat → Bool)
    (spawn : String → List String → Except String (List CommandEvent)) :
    SidecarOutcome :=
  match resource_dir with
  | Except.error e => SidecarOutcome.err ("Failed to resolve resource dir: " ++ e)
  | Except.ok root =>
    let resource_path := resolvedExecutablePath root
    if fs_exists resource_path then
      match pathToStr resource_path with
      | none => SidecarOutcome.panicked "called `Option::unwrap()` on a `None` value"
      | some exe =>
        match spawn exe sidecar_args with
        | Except.error e => SidecarOutcome.err ("Failed to spawn backend: " ++ e)
        | Except.ok events =>
          match start_sidecar_handshake events with
          | Except.ok p => SidecarOutcome.ok p
          | Except.error m => SidecarOutcome.err m
    else
      SidecarOutcome.err ("Backend binary not found at: " ++ pathDisplay resource_path)

/-- Events that neither terminate the receive loop nor change its state:
stdout lines not starting with the marker, and stderr lines (which fall
into the `_ => {}` arm of the Rust `match`). -/
def isIgnorable : CommandEvent → Bool
  | CommandEvent.Stdout line =>
    (stripStart portMarker (utf8DecodeLossy line)).isNone
  | CommandEvent.Stderr _ => true
  | CommandEvent.Error _ => false
  | CommandEvent.Terminated _ _ => false

/-- A sample resource directory used to instantiate theorems at concrete
inputs. -/
def sampleRoot : List Nat :=
  asciiBytes "/app/resources"

/-- A filesystem oracle on which every path exists. -/
def fsAll : List Nat → Bool :=
  fun _ => true

/-- An ignorable event is received and dropped: the loop continues on the
remaining stream with unchanged state. -/
theorem recvLoop_cons_ignorable (e : CommandEvent) (rest : List CommandEvent)
    (h : isIgnorable e = true) : recvLoop (e :: rest) = recvLoop rest := by
  cases e with
  | Stdout line =>
    simp only [isIgnorable, Option.isNone_iff_eq_none] at h
    simp [recvLoop, h]
  | Stderr line => simp [recvLoop]
  | Error m => simp [isIgnorable] at h
  | Terminated c s => simp [isIgnorable] at h

/-- A prefix of ignorable events is dropped wholesale by the loop. -/
theorem recvLoop_append_ignorable (pre rest : List CommandEvent)
    (h : ∀ e ∈ pre, isIgnorable e = true) :
    recvLoop (pre ++ rest) = recvLoop rest := by
  induction pre with
  | nil => rfl
  | cons e pre ih =>
    rw [List.cons_append, recvLoop_cons_ignorable e _ (h e (List.mem_cons_self e pre)),
      ih (fun x hx => h x (List.mem_cons_of_mem e hx))]

/-- Inserting one ignorable event anywhere in the stream leaves the loop
exit unchanged (only the unconsumed suffix may differ). -/
theorem recvLoop_fst_insert_ignorable (pre post : List CommandEvent) (e : CommandEvent)
    (h : isIgnorable e = true) :
    (recvLoop (pre ++ e :: post)).1 = (recvLoop (pre ++ post)).1 := by
  induction pre with
  | nil =>
    rw [List.nil_append, List.nil_append, recvLoop_cons_ignorable e post h]
  | cons a pre ih =>
    cases a with
    | Stdout line =>
      cases hm : stripStart portMarker (utf8DecodeLossy line) with
      | some p => simp [recvLoop, hm]
      | none => simp [recvLoop, hm, ih]
    | Stderr line => simpa [recvLoop] using ih
    | Error m => simp [recvLoop]
    | Terminated c s => simp [recvLoop]

/-- Unfolding of `start_sidecar` on the path where the executable exists,
its path converts to a string, and the spawn succeeds: the outcome is the
handshake result. -/
theorem start_sidecar_spawn_ok (root : List Nat) (fs_exists : List Nat → Bool)
    (spawn : String → List String → Except String (List CommandEvent))
    (exe : String) (events : List CommandEvent)
    (hfs : fs_exists (resolvedExecutablePath root) = true)
    (hstr : pathToStr (resolvedExecutablePath root) = some exe)
    (hspawn : spawn exe sidecar_args = Except.ok events) :
    start_sidecar (Except.ok root) fs_exists spawn =
      match start_sidecar_handshake events with
      | Except.ok p => SidecarOutcome.ok p
      | Except.error m => SidecarOutcome.err m := by
  simp [start_sidecar, hfs, hstr, hspawn]

/-- Appending strings concatenates their character data. -/
theorem str_data_append (a b : String) : (a ++ b).data = a.data ++ b.data := by
  cases a; cases b; rfl

/-- C1 (amended): if the first stdout line bearing the marker prefix is
observed before any error or termination event, and its remainder (after
trimming) parses as an unsigned 16-bit integer, then `start_sidecar`
returns `Success` with that port and the loop consumes no event after
that line. -/
theorem start_sidecar_first_marker_success
    (root : List Nat) (fs_exists : List Nat → Bool)
    (spawn : String → List String → Except String (List CommandEvent))
    (exe : String) (pre rest : List CommandEvent) (line : List Nat)
    (p : List Char) (v : Nat)
    (hfs : fs_exists (resolvedExecutablePath root) = true)
    (hstr : pathToStr (resolvedExecutablePath root) = some exe)
    (hspawn : spawn exe sidecar_args
      = Except.ok (pre ++ CommandEvent.Stdout line :: rest))
    (hpre : ∀ e ∈ pre, isIgnorable e = true)
    (hm : stripStart portMarker (utf8DecodeLossy line) = some p)
    (hp : parseU16 (rustTrim p) = some v) :
    start_sidecar (Except.ok root) fs_exists spawn = SidecarOutcome.ok v
    ∧ (recvLoop (pre ++ CommandEvent.Stdout line :: rest)).2 = rest := by
  have hloop : recvLoop (pre ++ CommandEvent.Stdout line :: rest)
      = (LoopExit.done (some v), rest) := by
    rw [recvLoop_append_ignorable pre _ hpre]
    simp [recvLoop, hm, hp]
  refine ⟨?_, by rw [hloop]⟩
  rw [start_sidecar_spawn_ok root fs_exists spawn exe _ hfs hstr hspawn]
  simp [start_sidecar_handshake, hloop]

/-- C1 witness: chatter, then `SHIPAGENT_PORT=54321`, then a termination
event yields `Success(54321)` with the trailing event unconsumed. -/
theorem start_sidecar_first_marker_success_w :
    start_sidecar (Except.ok sampleRoot) fsAll
      (fun _ _ => Except.ok
        [CommandEvent.Stdout (asciiBytes "log line"),
         CommandEvent.Stdout (asciiBytes "SHIPAGENT_PORT=54321"),
         CommandEvent.Terminated (some 0) none])
      = SidecarOutcome.ok 54321
    ∧ (recvLoop
        ([CommandEvent.Stdout (asciiBytes "log line")]
          ++ CommandEvent.Stdout (asciiBytes "SHIPAGENT_PORT=54321")
            :: [CommandEvent.Terminated (some 0) none])).2
      = [CommandEvent.Terminated (some 0) none] :=
  start_sidecar_first_marker_success sampleRoot fsAll
    (fun _ _ => Except.ok
      [CommandEvent.Stdout (asciiBytes "log line"),
       CommandEvent.Stdout (asciiBytes "SHIPAGENT_PORT=54321"),
       CommandEvent.Terminated (some 0) none])
    "/app/resources/backend-dist/shipagent-core"
    [CommandEvent.Stdout (asciiBytes "log line")]
    [CommandEvent.Terminated (some 0) none]
    (asciiBytes "SHIPAGENT_PORT=54321") "54321".data 54321
    (by decide) (by decide) rfl (by decide) (by decide) (by decide)

/-- C1 counterexample: in the stream `[Error "boom", Stdout
"SHIPAGENT_PORT=54321"]` the first (and only) marker-prefixed stdout line
parses as 54321, yet `start_sidecar` returns the stderr failure, not
`Success(54321)`: an error event delivered earlier wins. -/
theorem start_sidecar_first_marker_success_cex :
    stripStart portMarker (utf8DecodeLossy (asciiBytes "SHIPAGENT_PORT=54321"))
      = some "54321".data
    ∧ parseU16 (rustTrim "54321".data) = some 54321
    ∧ start_sidecar (Except.ok sampleRoot) fsAll
        (fun _ _ => Except.ok
          [CommandEvent.Error "boom",
           CommandEvent.Stdout (asciiBytes "SHIPAGENT_PORT=54321")])
        = SidecarOutcome.err "Backend stderr: boom" :=
  ⟨by decide, by decide, by decide⟩

/-- C2: an `Error` event delivered before any marker line (and before any
termination event) makes `start_sidecar` fail with `Backend stderr: `
followed by the reported text, which the message contains, and the loop
consumes nothing after that event — not even a later valid marker. -/
theorem start_sidecar_error_event_first
    (root : List Nat) (fs_exists : List Nat → Bool)
    (spawn : String → List String → Except String (List CommandEvent))
    (exe : String) (pre rest : List CommandEvent) (msg : String)
    (hfs : fs_exists (resolvedExecutablePath root) = true)
    (hstr : pathToStr (resolvedExecutablePath root) = some exe)
    (hspawn : spawn exe sidecar_args
      = Except.ok (pre ++ CommandEvent.Error msg :: rest))
    (hpre : ∀ e ∈ pre, isIgnorable e = true) :
    start_sidecar (Except.ok root) fs_exists spawn
      = SidecarOutcome.err ("Backend stderr: " ++ msg)
    ∧ msg.data <:+: ("Backend stderr: " ++ msg).data
    ∧ (recvLoop (pre ++ CommandEvent.Error msg :: rest)).2 = rest := by
  have hloop : recvLoop (pre ++ CommandEvent.Error msg :: rest)
      = (LoopExit.earlyReturn ("Backend stderr: " ++ msg), rest) := by
    rw [recvLoop_append_ignorable pre _ hpre]; rfl
  refine ⟨?_, ⟨"Backend stderr: ".data, [], by simp [str_data_append]⟩, by rw [hloop]⟩
  rw [start_sidecar_spawn_ok root fs_exists spawn exe _ hfs hstr hspawn]
  simp [start_sidecar_handshake, hloop]

/-- C2 witness: an error event followed by a valid marker line still
fails with the stderr message; the marker does not win. -/
theorem start_sidecar_error_event_first_w :
    start_sidecar (Except.ok sampleRoot) fsAll
      (fun _ _ => Except.ok
        [CommandEvent.Stdout (asciiBytes "warming up"),
         CommandEvent.Error "disk on fire",
         CommandEvent.Stdout (asciiBytes "SHIPAGENT_PORT=9999")])
      = SidecarOutcome.err ("Backend stderr: " ++ "disk on fire")
    ∧ "disk on fire".data <:+: ("Backend stderr: " ++ "disk on fire").data
    ∧ (recvLoop
        ([CommandEvent.Stdout (asciiBytes "warming up")]
          ++ CommandEvent.Error "disk on fire"
            :: [CommandEvent.Stdout (asciiBytes "SHIPAGENT_PORT=9999")])).2
      = [CommandEvent.Stdout (asciiBytes "SHIPAGENT_PORT=9999")] :=
  start_sidecar_error_event_first sampleRoot fsAll
    (fun _ _ => Except.ok
      [CommandEvent.Stdout (asciiBytes "warming up"),
       CommandEvent.Error "disk on fire",
       CommandEvent.Stdout (asciiBytes "SHIPAGENT_PORT=9999")])
    "/app/resources/backend-dist/shipagent-core"
    [CommandEvent.Stdout (asciiBytes "warming up")]
    [CommandEvent.Stdout (asciiBytes "SHIPAGENT_PORT=9999")]
    "disk on fire"
    (by decide) (by decide) rfl (by decide)

/-- C3: a termination event observed before any marker line (and before
any error event) makes `start_sidecar` fail with a message of the form
`Backend exited early: …`, and when the exit code is known the rendered
code appears in that message. -/
theorem start_sidecar_terminated_early
    (root : List Nat) (fs_exists : List Nat → Bool)
    (spawn : String → List String → Except String (List CommandEvent))
    (exe : String) (pre rest : List CommandEvent)
    (code : Option Int) (sig : Option Int)
    (hfs : fs_exists (resolvedExecutablePath root) = true)
    (hstr : pathToStr (resolvedExecutablePath root) = some exe)
    (hspawn : spawn exe sidecar_args
      = Except.ok (pre ++ CommandEvent.Terminated code sig :: rest))
    (hpre : ∀ e ∈ pre, isIgnorable e = true) :
    start_sidecar (Except.ok root) fs_exists spawn
      = SidecarOutcome.err ("Backend exited early: " ++ debugOption code)
    ∧ ∀ n : Int, code = some n →
        (toString n).data <:+: ("Backend exited early: " ++ debugOption code).data := by
  have hloop : recvLoop (pre ++ CommandEvent.Terminated code sig :: rest)
      = (LoopExit.earlyReturn ("Backend exited early: " ++ debugOption code), rest) := by
    rw [recvLoop_append_ignorable pre _ hpre]; rfl
  constructor
  · rw [start_sidecar_spawn_ok root fs_exists spawn exe _ hfs hstr hspawn]
    simp [start_sidecar_handshake, hloop]
  · rintro n rfl
    exact ⟨"Backend exited early: ".data ++ "Some(".data, ")".data,
      by simp [str_data_append, debugOption]⟩

/-- C3 witness: a worker that exits with code 1 before writing a marker
yields `Backend exited early: Some(1)`, which mentions the code 1. -/
theorem start_sidecar_terminated_early_w :
    start_sidecar (Except.ok sampleRoot) fsAll
      (fun _ _ => Except.ok
        [CommandEvent.Stdout (asciiBytes "starting"),
         CommandEvent.Terminated (some 1) none])
      = SidecarOutcome.err ("Backend exited early: " ++ debugOption (some 1))
    ∧ (toString (1 : Int)).data
        <:+: ("Backend exited early: " ++ debugOption (some 1)).data := by
  have h := start_sidecar_terminated_early sampleRoot fsAll
    (fun _ _ => Except.ok
      [CommandEvent.Stdout (asciiBytes "starting"),
       CommandEvent.Terminated (some 1) none])
    "/app/resources/backend-dist/shipagent-core"
    [CommandEvent.Stdout (asciiBytes "starting")] []
    (some 1) none
    (by decide) (by decide) rfl (by decide)
  exact ⟨h.1, h.2 1 rfl⟩

/-- C4: a stdout line whose marker prefix matches but whose remainder
fails to parse stops the loop unconditionally (nothing after it is
consumed) and `start_sidecar` falls through to `Backend did not report a
port` — the same outcome as for the prefix of the stream that never
contained a marker. -/
theorem start_sidecar_malformed_marker
    (root : List Nat) (fs_exists : List Nat → Bool)
    (spawn : String → List String → Except String (List CommandEvent))
    (exe : String) (pre rest : List CommandEvent) (line : List Nat)
    (p : List Char)
    (hfs : fs_exists (resolvedExecutablePath root) = true)
    (hstr : pathToStr (resolvedExecutablePath root) = some exe)
    (hspawn : spawn exe sidecar_args
      = Except.ok (pre ++ CommandEvent.Stdout line :: rest))
    (hpre : ∀ e ∈ pre, isIgnorable e = true)
    (hm : stripStart portMarker (utf8DecodeLossy line) = some p)
    (hp : parseU16 (rustTrim p) = none) :
    start_sidecar (Except.ok root) fs_exists spawn
      = SidecarOutcome.err "Backend did not report a port"
    ∧ (recvLoop (pre ++ CommandEvent.Stdout line :: rest)).2 = rest
    ∧ start_sidecar_handshake (pre ++ CommandEvent.Stdout line :: rest)
        = start_sidecar_handshake pre := by
  have hloop : recvLoop (pre ++ CommandEvent.Stdout line :: rest)
      = (LoopExit.done none, rest) := by
    rw [recvLoop_append_ignorable pre _ hpre]
    simp [recvLoop, hm, hp]
  have hpre2 : recvLoop pre = (LoopExit.done none, []) := by
    have h := recvLoop_append_ignorable pre [] hpre
    rwa [List.append_nil] at h
  refine ⟨?_, by rw [hloop], ?_⟩
  · rw [start_sidecar_spawn_ok root fs_exists spawn exe _ hfs hstr hspawn]
    simp [start_sidecar_handshake, hloop]
  · simp [start_sidecar_handshake, hloop, hpre2]

/-- C4 witness: a worker that writes only `SHIPAGENT_PORT=not-a-number`
and then terminates yields the generic no-port failure. -/
theorem start_sidecar_malformed_marker_w :
    start_sidecar (Except.ok sampleRoot) fsAll
      (fun _ _ => Except.ok
        [CommandEvent.Stdout (asciiBytes "SHIPAGENT_PORT=not-a-number"),
         CommandEvent.Terminated (some 0) none])
      = SidecarOutcome.err "Backend did not report a port"
    ∧ (recvLoop
        ([] ++ CommandEvent.Stdout (asciiBytes "SHIPAGENT_PORT=not-a-number")
          :: [CommandEvent.Terminated (some 0) none])).2
      = [CommandEvent.Terminated (some 0) none]
    ∧ start_sidecar_handshake
        ([] ++ CommandEvent.Stdout (asciiBytes "SHIPAGENT_PORT=not-a-number")
          :: [CommandEvent.Terminated (some 0) none])
      = start_sidecar_handshake [] :=
  start_sidecar_malformed_marker sampleRoot fsAll
    (fun _ _ => Except.ok
      [CommandEvent.Stdout (asciiBytes "SHIPAGENT_PORT=not-a-number"),
       CommandEvent.Terminated (some 0) none])
    "/app/resources/backend-dist/shipagent-core"
    [] [CommandEvent.Terminated (some 0) none]
    (asciiBytes "SHIPAGENT_PORT=not-a-number") "not-a-number".data
    (by decide) (by decide) rfl (by decide) (by decide) (by decide)

/-- C7: a stream that ends after only ignorable events (no marker line,
no error event, no termination event) makes `start_sidecar` return
`Backend did not report a port`. -/
theorem start_sidecar_stream_end_no_marker
    (root : List Nat) (fs_exists : List Nat → Bool)
    (spawn : String → List String → Except String (List CommandEvent))
    (exe : String) (events : List CommandEvent)
    (hfs : fs_exists (resolvedExecutablePath root) = true)
    (hstr : pathToStr (resolvedExecutablePath root) = some exe)
    (hspawn : spawn exe sidecar_args = Except.ok events)
    (hall : ∀ e ∈ events, isIgnorable e = true) :
    start_sidecar (Except.ok root) fs_exists spawn
      = SidecarOutcome.err "Backend did not report a port" := by
  have hloop : recvLoop events = (LoopExit.done none, []) := by
    have h := recvLoop_append_ignorable events [] hall
    rwa [List.append_nil] at h
  rw [start_sidecar_spawn_ok root fs_exists spawn exe _ hfs hstr hspawn]
  simp [start_sidecar_handshake, hloop]

/-- C7 witness: a worker that writes only unrelated stdout and stderr
lines and closes its stream yields the no-port failure. -/
theorem start_sidecar_stream_end_no_marker_w :
    start_sidecar (Except.ok sampleRoot) fsAll
      (fun _ _ => Except.ok
        [CommandEvent.Stdout (asciiBytes "hello"),
         CommandEvent.Stderr (asciiBytes "note"),
         CommandEvent.Stdout (asciiBytes "world")])
      = SidecarOutcome.err "Backend did not report a port" :=
  start_sidecar_stream_end_no_marker sampleRoot fsAll
    (fun _ _ => Except.ok
      [CommandEvent.Stdout (asciiBytes "hello"),
       CommandEvent.Stderr (asciiBytes "note"),
       CommandEvent.Stdout (asciiBytes "world")])
    "/app/resources/backend-dist/shipagent-core"
    [CommandEvent.Stdout (asciiBytes "hello"),
     CommandEvent.Stderr (asciiBytes "note"),
     CommandEvent.Stdout (asciiBytes "world")]
    (by decide) (by decide) rfl (by decide)

/-- C8: non-marker stdout lines and event kinds other than
stdout/error/termination never end the loop or change the outcome:
inserting any such event anywhere in the stream leaves the handshake
result — and hence the result of `start_sidecar` — unchanged. -/
theorem start_sidecar_ignorable_insertion :
    (∀ (pre post : List CommandEvent) (e : CommandEvent), isIgnorable e = true →
      start_sidecar_handshake (pre ++ e :: post)
        = start_sidecar_handshake (pre ++ post))
    ∧ ∀ (root : List Nat) (fs_exists : List Nat → Bool)
        (spawn spawn2 : String → List String → Except String (List CommandEvent))
        (exe : String) (pre post : List CommandEvent) (e : CommandEvent),
        fs_exists (resolvedExecutablePath root) = true →
        pathToStr (resolvedExecutablePath root) = some exe →
        spawn exe sidecar_args = Except.ok (pre ++ e :: post) →
        spawn2 exe sidecar_args = Except.ok (pre ++ post) →
        isIgnorable e = true →
        start_sidecar (Except.ok root) fs_exists spawn
          = start_sidecar (Except.ok root) fs_exists spawn2 := by
  have hh : ∀ (pre post : List CommandEvent) (e : CommandEvent),
      isIgnorable e = true →
      start_sidecar_handshake (pre ++ e :: post)
        = start_sidecar_handshake (pre ++ post) := by
    intro pre post e he
    unfold start_sidecar_handshake
    rw [recvLoop_fst_insert_ignorable pre post e he]
  refine ⟨hh, ?_⟩
  intro root fs_exists spawn spawn2 exe pre post e hfs hstr h1 h2 he
  rw [start_sidecar_spawn_ok root fs_exists spawn exe _ hfs hstr h1,
    start_sidecar_spawn_ok root fs_exists spawn2 exe _ hfs hstr h2,
    hh pre post e he]

/-- C8 witness: chatter before and after the marker line
`SHIPAGENT_PORT=8080` does not change the outcome, which is
`Success(8080)`. -/
theorem start_sidecar_ignorable_insertion_w :
    start_sidecar (Except.ok sampleRoot) fsAll
      (fun _ _ => Except.ok
        [CommandEvent.Stdout (asciiBytes "chatter before"),
         CommandEvent.Stdout (asciiBytes "SHIPAGENT_PORT=8080"),
         CommandEvent.Stdout (asciiBytes "chatter after")])
      = start_sidecar (Except.ok sampleRoot) fsAll
        (fun _ _ => Except.ok
          [CommandEvent.Stdout (asciiBytes "chatter before"),
           CommandEvent.Stdout (asciiBytes "SHIPAGENT_PORT=8080")])
    ∧ start_sidecar (Except.ok sampleRoot) fsAll
        (fun _ _ => Except.ok
          [CommandEvent.Stdout (asciiBytes "chatter before"),
           CommandEvent.Stdout (asciiBytes "SHIPAGENT_PORT=8080"),
           CommandEvent.Stdout (asciiBytes "chatter after")])
      = SidecarOutcome.ok 8080 :=
  ⟨start_sidecar_ignorable_insertion.2 sampleRoot fsAll
    (fun _ _ => Except.ok
      [CommandEvent.Stdout (asciiBytes "chatter before"),
       CommandEvent.Stdout (asciiBytes "SHIPAGENT_PORT=8080"),
       CommandEvent.Stdout (asciiBytes "chatter after")])
    (fun _ _ => Except.ok
      [CommandEvent.Stdout (asciiBytes "chatter before"),
       CommandEvent.Stdout (asciiBytes "SHIPAGENT_PORT=8080")])
    "/app/resources/backend-dist/shipagent-core"
    [CommandEvent.Stdout (asciiBytes "chatter before"),
     CommandEvent.Stdout (asciiBytes "SHIPAGENT_PORT=8080")]
    [] (CommandEvent.Stdout (asciiBytes "chatter after"))
    (by decide) (by decide) rfl rfl (by decide), by decide⟩

/-- C9: stdout bytes are processed only through total lossy UTF-8
decoding — the loop's action on a stdout event is a function of the
decoded text, the event either continues the loop or ends its collection
phase (never an early error return), and an invalid byte decodes to the
U+FFFD replacement character. -/
theorem recvLoop_lossy_stdout_safe :
    (∀ (b1 b2 : List Nat) (rest : List CommandEvent),
        utf8DecodeLossy b1 = utf8DecodeLossy b2 →
        recvLoop (CommandEvent.Stdout b1 :: rest)
          = recvLoop (CommandEvent.Stdout b2 :: rest))
    ∧ (∀ (bytes : List Nat) (rest : List CommandEvent),
        recvLoop (CommandEvent.Stdout bytes :: rest) = recvLoop rest
        ∨ ∃ po, recvLoop (CommandEvent.Stdout bytes :: rest)
            = (LoopExit.done po, rest))
    ∧ utf8DecodeLossy [0xFF] = [Char.ofNat 0xFFFD] := by
  refine ⟨?_, ?_, by decide⟩
  · intro b1 b2 rest h
    simp only [recvLoop, h]
  · intro bytes rest
    cases hm : stripStart portMarker (utf8DecodeLossy bytes) with
    | none => exact Or.inl (by simp [recvLoop, hm])
    | some p =>
      exact Or.inr ⟨parseU16 (rustTrim p), by simp [recvLoop, hm]⟩

/-- C9 witness: two different invalid byte sequences decoding to the same
replacement text are treated identically by the loop. -/
theorem recvLoop_lossy_stdout_safe_w :
    recvLoop [CommandEvent.Stdout [0xFF, 0xFF]]
      = recvLoop [CommandEvent.Stdout [0xED, 0xA0]] :=
  recvLoop_lossy_stdout_safe.1 [0xFF, 0xFF] [0xED, 0xA0] [] (by decide)

/-- C5: the worker is spawned with the fixed vector
`["serve", "--port", "0"]` — the positional argument `serve` (run as a
server) together with the flag `--port` and its value `0` (bind to an
OS-assigned ephemeral port) — and `start_sidecar` consults the spawn
capability only at that argument vector. -/
theorem start_sidecar_fixed_args :
    sidecar_args = ["serve"] ++ ["--port", "0"]
    ∧ ∀ (resource_dir : Except String (List Nat)) (fs_exists : List Nat → Bool)
        (spawn spawn2 : String → List String → Except String (List CommandEvent)),
        (∀ exe, spawn exe sidecar_args = spawn2 exe sidecar_args) →
        start_sidecar resource_dir fs_exists spawn
          = start_sidecar resource_dir fs_exists spawn2 := by
  refine ⟨rfl, ?_⟩
  intro rd fs_exists spawn spawn2 h
  cases rd with
  | error e => rfl
  | ok root => simp only [start_sidecar, h]

/-- C5 witness: a spawn capability that only answers on the vector
`["serve", "--port", "0"]` is indistinguishable from one answering
everywhere, so the spawn is consulted only at the fixed arguments. -/
theorem start_sidecar_fixed_args_w :
    start_sidecar (Except.ok sampleRoot) fsAll
      (fun _ args => if args = sidecar_args
        then Except.ok [CommandEvent.Stdout (asciiBytes "SHIPAGENT_PORT=8080")]
        else Except.error "unexpected arguments")
      = start_sidecar (Except.ok sampleRoot) fsAll
        (fun _ _ => Except.ok [CommandEvent.Stdout (asciiBytes "SHIPAGENT_PORT=8080")]) :=
  start_sidecar_fixed_args.2 (Except.ok sampleRoot) fsAll
    (fun _ args => if args = sidecar_args
      then Except.ok [CommandEvent.Stdout (asciiBytes "SHIPAGENT_PORT=8080")]
      else Except.error "unexpected arguments")
    (fun _ _ => Except.ok [CommandEvent.Stdout (asciiBytes "SHIPAGENT_PORT=8080")])
    (fun _ => by simp)

/-- C6: when the joined executable path does not exist, `start_sidecar`
fails with a message carrying the exact rendered path, and the result is
independent of the spawn capability (no spawn is attempted). -/
theorem start_sidecar_missing_executable
    (root : List Nat) (fs_exists : List Nat → Bool)
    (spawn : String → List String → Except String (List CommandEvent))
    (hfs : fs_exists (resolvedExecutablePath root) = false) :
    start_sidecar (Except.ok root) fs_exists spawn
      = SidecarOutcome.err
        ("Backend binary not found at: " ++ pathDisplay (resolvedExecutablePath root))
    ∧ (pathDisplay (resolvedExecutablePath root)).data <:+:
        ("Backend binary not found at: "
          ++ pathDisplay (resolvedExecutablePath root)).data
    ∧ ∀ spawn2, start_sidecar (Except.ok root) fs_exists spawn
        = start_sidecar (Except.ok root) fs_exists spawn2 := by
  have hmain : ∀ (sp : String → List String → Except String (List CommandEvent)),
      start_sidecar (Except.ok root) fs_exists sp
        = SidecarOutcome.err
          ("Backend binary not found at: "
            ++ pathDisplay (resolvedExecutablePath root)) := by
    intro sp
    simp [start_sidecar, hfs]
  exact ⟨hmain spawn,
    ⟨"Backend binary not found at: ".data, [], by simp [str_data_append]⟩,
    fun spawn2 => (hmain spawn).trans (hmain spawn2).symm⟩

/-- C6 witness: with a filesystem on which nothing exists, the failure
message carries `/app/resources/backend-dist/shipagent-core`, and two
arbitrary spawn capabilities give the same result. -/
theorem start_sidecar_missing_executable_w :
    start_sidecar (Except.ok sampleRoot) (fun _ => false)
      (fun _ _ => Except.ok [])
      = SidecarOutcome.err
        ("Backend binary not found at: "
          ++ pathDisplay (resolvedExecutablePath sampleRoot))
    ∧ (pathDisplay (resolvedExecutablePath sampleRoot)).data <:+:
        ("Backend binary not found at: "
          ++ pathDisplay (resolvedExecutablePath sampleRoot)).data
    ∧ start_sidecar (Except.ok sampleRoot) (fun _ => false)
        (fun _ _ => Except.ok [])
      = start_sidecar (Except.ok sampleRoot) (fun _ => false)
        (fun _ _ => Except.error "spawn refused") := by
  have h := start_sidecar_missing_executable sampleRoot (fun _ => false)
    (fun _ _ => Except.ok []) rfl
  exact ⟨h.1, h.2.1, h.2.2 (fun _ _ => Except.error "spawn refused")⟩

/-- C10: when the resolved executable path exists but is not valid UTF-8,
`start_sidecar` panics on the `unwrap()` of `to_str()` instead of
returning a failure; when the path is valid UTF-8 the conversion
succeeds and no outcome is a panic. -/
theorem start_sidecar_path_utf8_unwrap
    (root : List Nat) (fs_exists : List Nat → Bool)
    (spawn : String → List String → Except String (List CommandEvent))
    (hfs : fs_exists (resolvedExecutablePath root) = true) :
    (isValidUtf8 (resolvedExecutablePath root) = false →
      start_sidecar (Except.ok root) fs_exists spawn
        = SidecarOutcome.panicked "called `Option::unwrap()` on a `None` value")
    ∧ (isValidUtf8 (resolvedExecutablePath root) = true →
      pathToStr (resolvedExecutablePath root)
        = some (pathDisplay (resolvedExecutablePath root))
      ∧ ∀ m, start_sidecar (Except.ok root) fs_exists spawn
          ≠ SidecarOutcome.panicked m) := by
  constructor
  · intro hv
    simp [start_sidecar, hfs, pathToStr, hv]
  · intro hv
    have hstr : pathToStr (resolvedExecutablePath root)
        = some (pathDisplay (resolvedExecutablePath root)) := by
      simp [pathToStr, hv]
    refine ⟨hstr, ?_⟩
    intro m
    cases hsp : spawn (pathDisplay (resolvedExecutablePath root)) sidecar_args with
    | error e => simp [start_sidecar, hfs, hstr, hsp]
    | ok events =>
      cases hh : start_sidecar_handshake events with
      | ok p => simp [start_sidecar, hfs, hstr, hsp, hh]
      | error m2 => simp [start_sidecar, hfs, hstr, hsp, hh]

/-- C10 witness: a resource root whose bytes are not UTF-8 makes the
command panic, while the all-ASCII sample root never panics. -/
theorem start_sidecar_path_utf8_unwrap_w :
    start_sidecar (Except.ok [0xFF]) fsAll (fun _ _ => Except.ok [])
      = SidecarOutcome.panicked "called `Option::unwrap()` on a `None` value"
    ∧ start_sidecar (Except.ok sampleRoot) fsAll (fun _ _ => Except.ok [])
      ≠ SidecarOutcome.panicked "called `Option::unwrap()` on a `None` value" := by
  have h1 := start_sidecar_path_utf8_unwrap [0xFF] fsAll
    (fun _ _ => Except.ok []) rfl
  have h2 := start_sidecar_path_utf8_unwrap sampleRoot fsAll
    (fun _ _ => Except.ok []) rfl
  exact ⟨h1.1 (by decide),
    (h2.2 (by decide)).2 "called `Option::unwrap()` on a `None` value"⟩

